import Mathlib

/-!
Verification of the ExiLead pagination-aware extraction controller
(`src/Scraper/Final_Scraper copy.py`) against its specification.

The Python source is shallowly embedded: pure helpers (`parse_metadata`,
URL-parameter computation) become Lean functions on `String`/`List Char`;
browser-dependent code (`extract_job_data`, `handle_button_pagination`,
`handle_infinite_scroll`) is modelled by making every external observation
(element queries, attribute reads, raised exception messages, database
lookups, LLM responses) an explicit input, while all branching, string
matching and state updates are translated from the source.
-/

namespace ExiLead

/-! ## String utilities (Python semantics: `in`, `strip`, `lower`, regex pieces) -/

/-- `leadsWith pat s` is true when the character list `pat` is an initial
segment of `s` (used to model anchored literal matching). -/
def leadsWith : List Char → List Char → Bool
  | [], _ => true
  | _ :: _, [] => false
  | p :: ps, c :: cs => p = c && leadsWith ps cs

/-- `occursIn pat s` models Python `pat in s` (substring containment). -/
def occursIn (pat : List Char) : List Char → Bool
  | [] => pat.isEmpty
  | c :: rest => leadsWith pat (c :: rest) || occursIn pat rest

/-- Substring containment on `String`. -/
def strOccurs (pat s : String) : Bool :=
  occursIn pat.data s.data

/-- ASCII lower-casing of one character, as Python `str.lower` acts on the
ASCII error messages and company names appearing in the source. -/
def lowerCh (c : Char) : Char :=
  if 'A' ≤ c && c ≤ 'Z' then Char.ofNat (c.toNat + 32) else c

/-- ASCII lower-casing of a string. -/
def lowerStr (s : String) : String :=
  String.mk (s.data.map lowerCh)

/-- Python whitespace (`str.strip` default set and regex `\s`, ASCII part). -/
def isPySpace (c : Char) : Bool :=
  c = ' ' || c = '\t' || c = '\n' || c = '\r' || c = '\x0b' || c = '\x0c'

/-- ASCII letter, regex class `[A-Za-z]`. -/
def isAsciiLetter (c : Char) : Bool :=
  ('A' ≤ c && c ≤ 'Z') || ('a' ≤ c && c ≤ 'z')

/-- Regex class `\w` (ASCII part, which is all the source's inputs use). -/
def isWordCh (c : Char) : Bool :=
  isAsciiLetter c || c.isDigit || c = '_'

/-- Python `str.strip()` on a character list. -/
def pstripL (s : List Char) : List Char :=
  ((s.dropWhile isPySpace).reverse.dropWhile isPySpace).reverse

/-- Python `str.strip()` on a `String`. -/
def pstripS (s : String) : String :=
  String.mk (pstripL s.data)

/-- Python `str.strip(chars)` for an explicit character set. -/
def stripSetL (cs : List Char) (s : List Char) : List Char :=
  ((s.dropWhile (fun c => cs.contains c)).reverse.dropWhile
    (fun c => cs.contains c)).reverse

/-- Python truthiness of an optional string: `None` and `""` are falsy. -/
def pyTruthy (o : Option String) : Bool :=
  match o with
  | none => false
  | some s => s ≠ ""

/-! ## Deduplication gate (`check_apply_link_exists`, source lines 113-138)

The external database interaction is an explicit input: the connection may
fail (`get_db_connection` returned `None`), the lookup may raise, or it
reports a row count. -/

/-- Outcome of the external database interaction inside
`check_apply_link_exists`. -/
inductive DbOutcome where
  | connFailed
  | lookupRaised
  | count (n : Nat)
deriving DecidableEq, Repr

/-- Embedding of `check_apply_link_exists(apply_link)`: `None`/empty/`"N/A"`
links are never duplicates; a failed connection or a raised lookup returns
`False`; otherwise the result is `count > 0`. -/
def check_apply_link_exists (apply_link : Option String) (db : DbOutcome) : Bool :=
  match apply_link with
  | none => false
  | some s =>
    if s = "" then false
    else if s = "N/A" then false
    else
      match db with
      | .connFailed => false
      | .lookupRaised => false
      | .count n => decide (0 < n)

/-- C4: the deduplication gate returns `false` for `None`/empty/`"N/A"` links,
fails open (`false`) on connection failure or lookup error, and returns `true`
exactly when a successful lookup reports a positive count for a usable link. -/
theorem claim_C4_dedup_gate_fails_open (link : Option String) (db : DbOutcome) :
    ((link = none ∨ link = some "" ∨ link = some "N/A") →
      check_apply_link_exists link db = false)
    ∧ ((db = DbOutcome.connFailed ∨ db = DbOutcome.lookupRaised) →
      check_apply_link_exists link db = false)
    ∧ (check_apply_link_exists link db = true ↔
      ∃ s n, link = some s ∧ s ≠ "" ∧ s ≠ "N/A" ∧ db = DbOutcome.count n ∧ 0 < n) := by
  rcases link with _ | s
  · rcases db with _ | _ | n <;> simp [check_apply_link_exists]
  · rcases db with _ | _ | n <;>
      by_cases h1 : s = "" <;> by_cases h2 : s = "N/A" <;>
        simp [check_apply_link_exists, h1, h2]

/-- Witness for C4 at a concrete usable link with a positive count. -/
theorem claim_C4_dedup_gate_fails_open_witness :
    check_apply_link_exists (some "https://acme.example/j1") (DbOutcome.count 3) = true :=
  (claim_C4_dedup_gate_fails_open (some "https://acme.example/j1")
    (DbOutcome.count 3)).2.2.mpr
    ⟨"https://acme.example/j1", 3, rfl, by decide, by decide, rfl, by decide⟩

/-! ## Card field extraction (`extract_job_data`, per-field blocks,
source lines 962-977 and 1032-1080)

Each field block is the same shape: if the configured selector is falsy the
field is `"N/A"`; otherwise the element query / text read either raises (the
message is classified against the two browser-closed substrings), finds no
element (`"N/A"`), or yields text that is stripped. The browser interaction
is an explicit input. -/

/-- Outcome of one `card.query_selector(sel)` / `.text_content()` interaction. -/
inductive FieldOutcome where
  | raises (msg : String)
  | absent
  | found (text : String)
deriving DecidableEq, Repr

/-- Result of one field block: a string value, or the browser-closed signal
that makes the card loop break. -/
inductive FieldResult where
  | value (s : String)
  | sessionTerminated
deriving DecidableEq, Repr

/-- The source's error classification: the lowercased exception message
contains `'target page, context or browser has been closed'` or
`'browser has been closed'`. -/
def isBrowserClosedMsg (msg : String) : Bool :=
  strOccurs "target page, context or browser has been closed" (lowerStr msg)
    || strOccurs "browser has been closed" (lowerStr msg)

/-- Embedding of one per-field extraction block of `extract_job_data`. -/
def extract_field (selector : Option String) (o : FieldOutcome) : FieldResult :=
  if pyTruthy selector then
    match o with
    | .raises msg =>
      if isBrowserClosedMsg msg then .sessionTerminated else .value "N/A"
    | .absent => .value "N/A"
    | .found t => .value (pstripS t)
  else .value "N/A"

/-- C8: field extraction is total: an empty/missing selector, a missing
element, or an error not classified as session termination all yield the
sentinel `"N/A"`; a found element yields its stripped text; and the block
always returns (a value or the session-terminated signal), never propagating
an exception. -/
theorem claim_C8_field_extraction_total (sel : Option String) (o : FieldOutcome) :
    (pyTruthy sel = false → extract_field sel o = FieldResult.value "N/A")
    ∧ (o = FieldOutcome.absent → extract_field sel o = FieldResult.value "N/A")
    ∧ (∀ msg, o = FieldOutcome.raises msg → isBrowserClosedMsg msg = false →
        extract_field sel o = FieldResult.value "N/A")
    ∧ (∀ t, o = FieldOutcome.found t → pyTruthy sel = true →
        extract_field sel o = FieldResult.value (pstripS t))
    ∧ ((∃ s, extract_field sel o = FieldResult.value s)
        ∨ extract_field sel o = FieldResult.sessionTerminated) := by
  refine ⟨fun hs => ?_, fun ho => ?_, fun msg ho hm => ?_, fun t ho hs => ?_, ?_⟩
  · simp [extract_field, hs]
  · cases hp : pyTruthy sel <;> simp [extract_field, ho, hp]
  · cases hp : pyTruthy sel <;> simp [extract_field, ho, hp, hm]
  · simp [extract_field, ho, hs]
  · unfold extract_field
    rcases o with msg | _ | t
    · cases hp : pyTruthy sel
      · simp [hp]
      · cases hm : isBrowserClosedMsg msg <;> simp [hp, hm]
    · cases hp : pyTruthy sel <;> simp [hp]
    · cases hp : pyTruthy sel <;> simp [hp]

/-- Witness for C8: an empty selector yields the sentinel, a transient error
on a configured selector yields the sentinel, and found text is stripped. -/
theorem claim_C8_field_extraction_total_witness :
    extract_field (some "") (FieldOutcome.found " x ") = FieldResult.value "N/A"
    ∧ extract_field (some ".t") (FieldOutcome.raises "Timeout 30000ms exceeded")
        = FieldResult.value "N/A"
    ∧ extract_field (some ".t") (FieldOutcome.found "  Engineer ")
        = FieldResult.value "Engineer" :=
  ⟨(claim_C8_field_extraction_total (some "") (FieldOutcome.found " x ")).1 (by decide),
   (claim_C8_field_extraction_total (some ".t")
      (FieldOutcome.raises "Timeout 30000ms exceeded")).2.2.1
      "Timeout 30000ms exceeded" rfl (by decide),
   (claim_C8_field_extraction_total (some ".t")
      (FieldOutcome.found "  Engineer ")).2.2.2.1 "  Engineer " rfl (by decide)⟩

/-! ## Button pagination (`handle_button_pagination`, source lines 685-719)

The page interaction is an input: the button query result (with its
`disabled` and `class` attribute values as Playwright reports them, `None`
when absent) and whether the click raises. The whole body is wrapped in
`try/except` returning `False`, so a raising click yields `False`. -/

/-- Attribute values of the located pagination button. -/
structure BtnElement where
  disabledAttr : Option String
  classAttr : Option String
deriving DecidableEq, Repr

/-- Page model for `handle_button_pagination`: the query result for the
pagination selector and whether the click succeeds. -/
structure BtnPage where
  nextButton : Option BtnElement
  clickOk : Bool
deriving DecidableEq, Repr

/-- Embedding of `handle_button_pagination`. The disabled test is the
source's Python-truthiness test
`next_button.get_attribute('disabled') or 'disabled' in (next_button.get_attribute('class') or '')`. -/
def handle_button_pagination (paginationSelector : Option String) (page : BtnPage) : Bool :=
  if pyTruthy paginationSelector then
    match page.nextButton with
    | none => false
    | some b =>
      if pyTruthy b.disabledAttr || strOccurs "disabled" (b.classAttr.getD "") then
        false
      else page.clickOk
  else false

/-- C7 counterexample: a located button that carries a `disabled` attribute
whose reported value is the empty string (the bare-attribute case) is
clicked: the function returns `true`, not `false` as the claim requires. -/
theorem claim_C7_disabled_button_counterexample :
    handle_button_pagination (some ".next")
      ⟨some ⟨some "", some "pager-next"⟩, true⟩ = true := by
  decide

/-- C7 (amended): pagination halts (returns `false`, no error) when the
selector is falsy, the button is absent, the `disabled` attribute has a
non-empty value, or the class attribute contains `"disabled"` as a
substring; it returns `true` exactly when the selector is truthy, the button
is present, neither disabled test fires, and the click succeeds. A bare
`disabled` attribute reported as the empty string does not halt pagination. -/
theorem claim_C7_disabled_button_halts (sel : Option String) (page : BtnPage) :
    (handle_button_pagination sel page = true ↔
      (pyTruthy sel = true ∧ ∃ b, page.nextButton = some b
        ∧ pyTruthy b.disabledAttr = false
        ∧ strOccurs "disabled" (b.classAttr.getD "") = false
        ∧ page.clickOk = true))
    ∧ (∀ b, page.nextButton = some b →
        strOccurs "disabled" (b.classAttr.getD "") = true →
        handle_button_pagination sel page = false)
    ∧ (∀ b v, page.nextButton = some b → b.disabledAttr = some v → v ≠ "" →
        handle_button_pagination sel page = false)
    ∧ (page.nextButton = none → handle_button_pagination sel page = false) := by
  obtain ⟨btn, click⟩ := page
  refine ⟨?_, ?_, ?_, ?_⟩
  · cases hp : pyTruthy sel
    · simp [handle_button_pagination, hp]
    · rcases btn with _ | b
      · simp [handle_button_pagination, hp]
      · cases hd : pyTruthy b.disabledAttr <;>
          cases hc : strOccurs "disabled" (b.classAttr.getD "") <;>
            simp [handle_button_pagination, hp, hd, hc]
  · rintro b hb hc
    obtain rfl : btn = some b := hb
    cases hp : pyTruthy sel <;> simp [handle_button_pagination, hp, hc]
  · rintro b v hb hv hne
    obtain rfl : btn = some b := hb
    have hd : pyTruthy b.disabledAttr = true := by
      simp [pyTruthy, hv, hne]
    cases hp : pyTruthy sel <;> simp [handle_button_pagination, hp, hd]
  · rintro hb
    obtain rfl : btn = none := hb
    cases hp : pyTruthy sel <;> simp [handle_button_pagination, hp]

/-- Witness for C7 (amended): a present button whose class contains the
`disabled` token halts pagination exactly like an absent button. -/
theorem claim_C7_disabled_button_halts_witness :
    handle_button_pagination (some ".next")
      ⟨some ⟨none, some "btn disabled"⟩, true⟩ = false
    ∧ handle_button_pagination (some ".next") ⟨none, true⟩ = false :=
  ⟨(claim_C7_disabled_button_halts (some ".next")
      ⟨some ⟨none, some "btn disabled"⟩, true⟩).2.1
      ⟨none, some "btn disabled"⟩ rfl (by decide),
   (claim_C7_disabled_button_halts (some ".next") ⟨none, true⟩).2.2.2 rfl⟩

/-! ## Infinite scroll (`handle_infinite_scroll`, source lines 721-775)

A deterministic page model: `counts n` is the number of job cards rendered
after `n` scrolls (`counts 0` is the initial count read before the loop).
The while loop `while consecutive_no_load < 3 and total_scrolls < 20` is
embedded with fuel `20 - total_scrolls`, so fuel `0` is exactly
`total_scrolls = 20`. -/

/-- One-step embedding of the scroll loop body: before-count, scroll,
after-count, then reset or bump `consecutive_no_load`. Returns the final
`total_scrolls`. -/
def scrollLoop (counts : Nat → Nat) : Nat → Nat → Nat → Nat
  | 0, _, total => total
  | fuel + 1, consec, total =>
    if consec < 3 then
      if counts total < counts (total + 1) then
        scrollLoop counts fuel 0 (total + 1)
      else
        scrollLoop counts fuel (consec + 1) (total + 1)
    else total

/-- Total number of scroll attempts performed by `handle_infinite_scroll` on
a page model, starting from `consecutive_no_load = 0`, `total_scrolls = 0`,
with the source's hard limits `max_consecutive_attempts = 3`,
`max_scrolls = 20`. -/
def infiniteScrollTotal (counts : Nat → Nat) : Nat :=
  scrollLoop counts 20 0 0

/-- Return value of `handle_infinite_scroll`: whether any new jobs were
loaded overall. -/
def handle_infinite_scroll (counts : Nat → Nat) : Bool :=
  decide (counts 0 < counts (infiniteScrollTotal counts))

/-- The scroll loop can perform at most `fuel` further scrolls. -/
lemma scrollLoop_le (counts : Nat → Nat) :
    ∀ fuel consec total, scrollLoop counts fuel consec total ≤ total + fuel := by
  intro fuel
  induction fuel with
  | zero => intro consec total; simp [scrollLoop]
  | succ f ih =>
    intro consec total
    rw [scrollLoop]
    split
    · split
      · exact le_trans (ih 0 (total + 1)) (by omega)
      · exact le_trans (ih (consec + 1) (total + 1)) (by omega)
    · omega

/-- With `consecutive_no_load` already at the limit the loop stops at once. -/
lemma scrollLoop_at_limit (counts : Nat → Nat) :
    ∀ fuel total, scrollLoop counts fuel 3 total = total := by
  intro fuel total
  cases fuel <;> simp [scrollLoop]

/-- Once the card count stops increasing, the loop performs exactly the
`3 - consec` confirming no-progress scrolls. -/
lemma scrollLoop_stall (counts : Nat → Nat) (k : Nat)
    (hno : ∀ i, k ≤ i → counts (i + 1) ≤ counts i) :
    ∀ c t fuel, k ≤ t → c < 3 → 3 - c ≤ fuel →
      scrollLoop counts fuel c t = t + (3 - c) := by
  have main : ∀ m c t fuel, 3 - c = m → k ≤ t → c < 3 → 3 - c ≤ fuel →
      scrollLoop counts fuel c t = t + (3 - c) := by
    intro m
    induction m with
    | zero => omega
    | succ d ih =>
      intro c t fuel hd ht hc hfuel
      obtain ⟨f, rfl⟩ : ∃ f, fuel = f + 1 := ⟨fuel - 1, by omega⟩
      rw [scrollLoop, if_pos hc, if_neg (by exact Nat.not_lt.mpr (hno t ht))]
      by_cases hc1 : c + 1 < 3
      · rw [ih (c + 1) (t + 1) f (by omega) (by omega) hc1 (by omega)]
        omega
      · have hc2 : c + 1 = 3 := by omega
        rw [hc2, scrollLoop_at_limit]
        omega
  intro c t fuel ht hc hfuel
  exact main (3 - c) c t fuel rfl ht hc hfuel

/-- While the card count strictly increases, each scroll resets the
no-progress counter, so after `d` more scrolls the loop reaches scroll
index `k` with the counter at `0`. -/
lemma scrollLoop_progress (counts : Nat → Nat) (k : Nat)
    (hinc : ∀ i, i < k → counts i < counts (i + 1)) :
    ∀ d t c fuel, t + d = k → 1 ≤ d → d ≤ fuel → c < 3 →
      scrollLoop counts fuel c t = scrollLoop counts (fuel - d) 0 k := by
  intro d
  induction d with
  | zero => omega
  | succ d ih =>
    intro t c fuel ht hd hfuel hc
    obtain ⟨f, rfl⟩ : ∃ f, fuel = f + 1 := ⟨fuel - 1, by omega⟩
    rw [scrollLoop, if_pos hc, if_pos (hinc t (by omega))]
    rcases Nat.eq_zero_or_pos d with hz | hpos
    · subst hz
      have : t + 1 = k := by omega
      subst this
      simp
    · rw [ih (t + 1) 0 f (by omega) hpos (by omega) (by omega)]
      congr 1
      omega

/-- C2: `handle_infinite_scroll` terminates on every page model. If the card
count strictly increases on each of the first `k` scrolls and never
increases afterwards, with `k + 3 ≤ 20`, the engine performs exactly `k + 3`
scroll attempts; and on every page model it performs at most `20`. -/
theorem claim_C2_infinite_scroll_termination (counts : Nat → Nat) (k : Nat)
    (hk : k + 3 ≤ 20)
    (hinc : ∀ i, i < k → counts i < counts (i + 1))
    (hno : ∀ i, k ≤ i → counts (i + 1) ≤ counts i) :
    infiniteScrollTotal counts = k + 3
    ∧ ∀ g : Nat → Nat, infiniteScrollTotal g ≤ 20 := by
  constructor
  · unfold infiniteScrollTotal
    rcases Nat.eq_zero_or_pos k with hz | hpos
    · subst hz
      rw [scrollLoop_stall counts 0 hno 0 0 20 le_rfl (by omega) (by omega)]
    · rw [scrollLoop_progress counts k hinc k 0 0 20 (by omega) hpos (by omega)
        (by omega)]
      rw [scrollLoop_stall counts k hno 0 k (20 - k) le_rfl (by omega) (by omega)]
  · intro g
    exact le_trans (scrollLoop_le g 20 0 0) (by omega)

/-- Witness for C2 at the page model `counts n = min n 2` (strict growth on
the first 2 scrolls, flat afterwards): exactly `2 + 3 = 5` scrolls, and the
20-scroll cap holds. -/
theorem claim_C2_infinite_scroll_termination_witness :
    infiniteScrollTotal (fun n => min n 2) = 2 + 3
    ∧ ∀ g : Nat → Nat, infiniteScrollTotal g ≤ 20 :=
  claim_C2_infinite_scroll_termination (fun n => min n 2) 2 (by omega)
    (by decide)
    (by intro i hi; simp only [Nat.min_def]; split <;> split <;> omega)

/-! ## URL parameter pagination (`handle_url_param_pagination`,
source lines 640-684)

The next-value computation and URL rewriting are pure and embedded in full.
`re.sub(f'{param}=\\d+', f'{param}={next_value}', url)` is embedded for
metacharacter-free parameter names (the only kind the source configures):
scan left to right; at the leftmost occurrence of `param=` followed by at
least one digit, consume the maximal digit run and emit the replacement;
continue after the match. -/

/-- Length of the match of `param=\d+` at the head of `s` (`pat` is
`param=`): the pattern plus the maximal nonempty digit run. -/
def paramNumMatchLen (pat s : List Char) : Option Nat :=
  if leadsWith pat s then
    let ds := (s.drop pat.length).takeWhile Char.isDigit
    if ds.isEmpty then none else some (pat.length + ds.length)
  else none

/-- Left-to-right scan of `re.sub` for the pattern `param=\d+`. Every step
consumes at least one character, so fuel equal to the input length (supplied
by `subParamNum`) always suffices and the fuel-exhaustion branch is
unreachable. -/
def subAux (pat repl : List Char) : Nat → List Char → List Char
  | _, [] => []
  | 0, s => s
  | fuel + 1, c :: rest =>
    match paramNumMatchLen pat (c :: rest) with
    | some n => repl ++ subAux pat repl fuel (rest.drop (n - 1))
    | none => c :: subAux pat repl fuel rest

/-- `re.sub(f'{param}=\\d+', f'{param}={value}', url)`. -/
def subParamNum (param value url : String) : String :=
  String.mk (subAux (param.data ++ [ '=' ]) (param.data ++ '=' :: value.data)
    url.data.length url.data)

/-- Embedding of the next-value computation of `handle_url_param_pagination`
(source lines 647-658). `page_number` is the current 1-based page index. -/
def next_value (param : String) (step page_number : Int) : Int :=
  if param = "startrow" then (page_number - 1) * step + step
  else if param = "page" then page_number + 1
  else if param = "p" then page_number + 1
  else if param = "jobOffset" then (page_number - 1) * step + step
  else page_number + 1

/-- Embedding of the URL update of `handle_url_param_pagination` (source
lines 660-665): rewrite the numeric parameter in place when `param=` occurs
in the current URL, otherwise append it with `?` or `&`. -/
def handle_url_param_next_url (param : String) (step page_number : Int)
    (current_url : String) : String :=
  let nv := next_value param step page_number
  if strOccurs (param ++ "=") current_url then
    subParamNum param (toString nv) current_url
  else
    current_url ++ (if strOccurs "?" current_url then "&" else "?")
      ++ param ++ "=" ++ toString nv

/-- C3: the next parameter value is deterministic: `page` maps to
`page_number + 1` for every configured step, `startrow` with step `s` maps
to `(page_number - 1) * s + s` (page index 2 with step 25 gives 50); an
existing numeric parameter is rewritten in place (`...?page=2` becomes
`...?page=3`), and otherwise the parameter is appended with `?` or `&` as
appropriate. -/
theorem claim_C3_url_param_next (param url : String) (step n : Int)
    (happ : strOccurs (param ++ "=") url = false) :
    (∀ s m : Int, next_value "page" s m = m + 1)
    ∧ (∀ s m : Int, next_value "startrow" s m = (m - 1) * s + s)
    ∧ next_value "startrow" 25 2 = 50
    ∧ handle_url_param_next_url "page" 1 2 "https://ex.example/list?page=2&sort=new"
        = "https://ex.example/list?page=3&sort=new"
    ∧ handle_url_param_next_url param step n url
        = url ++ (if strOccurs "?" url then "&" else "?")
            ++ param ++ "=" ++ toString (next_value param step n) := by
  refine ⟨fun s m => rfl, fun s m => rfl, by decide, by decide, ?_⟩
  simp [handle_url_param_next_url, happ]

/-- Witness for C3: appending to a URL without a query string uses `?`, and
the `startrow` offset family value at page index 2, step 25, is 50. -/
theorem claim_C3_url_param_next_witness :
    handle_url_param_next_url "foo" 1 1 "https://ex.example/list"
      = "https://ex.example/list?foo=2"
    ∧ next_value "startrow" 25 2 = 50 := by
  have h := claim_C3_url_param_next "foo" "https://ex.example/list" 1 1 (by decide)
  exact ⟨by rw [h.2.2.2.2]; decide, h.2.2.1⟩

/-- C10: the offset family `(page_number - 1) * step + step` is used exactly
for the parameter names `startrow` and `jobOffset`; every other name
(including unrecognized ones) gets `page_number + 1` with the configured
step ignored. -/
theorem claim_C10_offset_family_params (param : String) (step n : Int) :
    ((param = "startrow" ∨ param = "jobOffset") →
      next_value param step n = (n - 1) * step + step)
    ∧ (param ≠ "startrow" → param ≠ "jobOffset" →
      next_value param step n = n + 1) := by
  constructor
  · rintro (rfl | rfl)
    · rfl
    · rfl
  · intro h1 h2
    unfold next_value
    rw [if_neg h1]
    by_cases hp : param = "page"
    · simp [hp]
    · rw [if_neg hp]
      by_cases hpp : param = "p"
      · simp [hpp]
      · rw [if_neg hpp, if_neg h2]

/-- Witness for C10: an unrecognized parameter name ignores the step, while
`jobOffset` uses the offset family. -/
theorem claim_C10_offset_family_params_witness :
    next_value "foo" 25 2 = 3 ∧ next_value "jobOffset" 25 2 = 50 :=
  ⟨(claim_C10_offset_family_params "foo" 25 2).2 (by decide) (by decide),
   (claim_C10_offset_family_params "jobOffset" 25 2).1 (Or.inr rfl)⟩

/-! ## Metadata text parser (`parse_metadata`, source lines 777-852)

The source applies, in order:
1. `re.match(r'Posted\s+([A-Za-z]{3,9} \d{1,2}, \d{4})(.*)', text)` and on a
   match returns the 2-tuple `(group2.strip(' ,'), group1.strip())`;
2. `re.search(r'Experience[:\s]*([\w\-\s]+?years?)', text, re.IGNORECASE)`,
   `re.search(r'Required Skill[:\s]*(.+)', text, re.IGNORECASE)` and
   `re.match(r'([^,\n]+?)(?:\s+Full time|\s+Experience:|\s+Required Skill:|$)', text)`,
   returning the 4-tuple when the experience or skill group was found;
3. an ordered list of location/date fallback regexes.
Each regex below is hand-compiled into a deterministic matcher whose
backtracking behaviour is resolved: greedy runs followed by a literal that
cannot extend the run are forced, and lazy groups stop at the first
position where the trailing literal matches. Rule 3 is not needed by any
claim and parameterizes the embedding (`fb`); every theorem below holds for
every value of that parameter, which is exactly the short-circuiting the
spec describes. -/

/-- Result shape of `parse_metadata`: the 2-tuple `(location, posted_date)`
or the 4-tuple `(location, posted_date, experience, skills)`. -/
inductive ParseResult where
  | two (location posted : String)
  | four (location posted experience skills : String)
deriving DecidableEq, Repr

/-- Case-insensitive literal prefix test (`pat` given lowercased). -/
def ciLeads (pat s : List Char) : Bool :=
  leadsWith pat (s.map lowerCh)

/-- Regex class `[:\s]`. -/
def isColonSpace (c : Char) : Bool :=
  c = ':' || isPySpace c

/-- Regex class `[\w\-\s]`. -/
def expClassCh (c : Char) : Bool :=
  isWordCh c || c = '-' || isPySpace c

/-- Matcher for `Posted\s+([A-Za-z]{3,9} \d{1,2}, \d{4})(.*)` anchored at the
start (`re.match`), returning `(group1, group2)`. The greedy quantifiers are
forced: letters cannot continue into the following space, digits cannot
continue into the comma, and `(.*)` takes the rest of the line. -/
def matchPosted (s : List Char) : Option (List Char × List Char) :=
  if leadsWith "Posted".data s then
    let r1 := s.drop 6
    let ws := r1.takeWhile isPySpace
    let r2 := r1.dropWhile isPySpace
    if ws.isEmpty then none
    else
      let ls := r2.takeWhile isAsciiLetter
      let r3 := r2.dropWhile isAsciiLetter
      if 3 ≤ ls.length && ls.length ≤ 9 then
        match r3 with
        | ' ' :: r4 =>
          let ds := r4.takeWhile Char.isDigit
          let r5 := r4.dropWhile Char.isDigit
          if 1 ≤ ds.length && ds.length ≤ 2 then
            match r5 with
            | ',' :: ' ' :: r6 =>
              let ys := r6.take 4
              if ys.length = 4 && ys.all Char.isDigit then
                some (ls ++ ' ' :: ds ++ ',' :: ' ' :: ys,
                  (r6.drop 4).takeWhile (fun c => c ≠ '\n'))
              else none
            | _ => none
          else none
        | _ => none
      else none
  else none

/-- The chars matched by `years?` (case-insensitive) at the head of `u`,
with the greedy optional `s`. -/
def yearChunk (u : List Char) : Option (List Char) :=
  if ciLeads "year".data u then
    match u.drop 4 with
    | c :: _ => if lowerCh c = 's' then some (u.take 5) else some (u.take 4)
    | [] => some (u.take 4)
  else none

/-- Lazy scan of `[\w\-\s]+?` followed by `years?`: consume class characters
one at a time and stop at the first point where `years?` matches. `acc`
holds the consumed group characters in reverse. -/
def lazyYearScan (acc : List Char) : List Char → Option (List Char)
  | [] => none
  | c :: rest =>
    if expClassCh c then
      match yearChunk rest with
      | some y => some (acc.reverse ++ c :: y)
      | none => lazyYearScan (c :: acc) rest
    else none

/-- The `Experience[:\s]*([\w\-\s]+?years?)` tail after the literal
`Experience`. The greedy `[:\s]*` run backtracks at most to one whitespace
character before `u` (a colon cannot belong to the group class, and `year`
cannot begin inside the run). -/
def expAtTail (t : List Char) : Option (List Char) :=
  let ws := t.takeWhile isColonSpace
  let u := t.dropWhile isColonSpace
  match lazyYearScan [] u with
  | some g => some g
  | none =>
    match yearChunk u with
    | some y =>
      match ws.getLast? with
      | some c => if isPySpace c then some (c :: y) else none
      | none => none
    | none => none

/-- `re.search` for `Experience[:\s]*([\w\-\s]+?years?)`, case-insensitive:
the leftmost occurrence of the literal whose tail matches wins. -/
def expSearch : List Char → Option (List Char)
  | [] => none
  | c :: rest =>
    if ciLeads "experience".data (c :: rest) then
      match expAtTail (rest.drop 9) with
      | some g => some g
      | none => expSearch rest
    else expSearch rest

/-- The `Required Skill[:\s]*(.+)` tail after the literal: greedy `[:\s]*`
then at least one non-newline character up to the end of the line,
backtracking into the run when it reaches a line end. -/
def skillAtTail (t : List Char) : Option (List Char) :=
  let ws := t.takeWhile isColonSpace
  let u := t.dropWhile isColonSpace
  match u with
  | c :: _ =>
    if c ≠ '\n' then some (u.takeWhile (fun x => x ≠ '\n'))
    else
      match ws.reverse.dropWhile (fun x => x = '\n') with
      | d :: _ => some [ d ]
      | [] => none
  | [] =>
    match ws.reverse.dropWhile (fun x => x = '\n') with
    | d :: _ => some [ d ]
    | [] => none

/-- `re.search` for `Required Skill[:\s]*(.+)`, case-insensitive. -/
def skillSearch : List Char → Option (List Char)
  | [] => none
  | c :: rest =>
    if ciLeads "required skill".data (c :: rest) then
      match skillAtTail (rest.drop 13) with
      | some g => some g
      | none => skillSearch rest
    else skillSearch rest

/-- One alternative of `(?:\s+Full time|\s+Experience:|\s+Required Skill:|$)`
matching at `rest` (the `\s+` runs are forced since the following literals
start with non-space letters; `$` matches at the end or before a final
newline). -/
def locAltAt (rest : List Char) : Bool :=
  (rest.isEmpty || rest = [ '\n' ]) ||
    (let ws := rest.takeWhile isPySpace
     let v := rest.dropWhile isPySpace
     (!ws.isEmpty) && (leadsWith "Full time".data v || leadsWith "Experience:".data v
        || leadsWith "Required Skill:".data v))

/-- Lazy scan of `([^,\n]+?)` for the location `re.match`: after each
consumed character try the alternatives; a comma or newline kills the
match. `taken` holds the group in reverse. -/
def locScan : List Char → List Char → Option (List Char)
  | taken, [] => if taken.isEmpty then none else some taken.reverse
  | taken, c :: rest =>
    if (!taken.isEmpty) && locAltAt (c :: rest) then some taken.reverse
    else if c = ',' || c = '\n' then none
    else locScan (c :: taken) rest

/-- `re.match(r'([^,\n]+?)(?:\s+Full time|\s+Experience:|\s+Required Skill:|$)', text)`. -/
def locMatch (s : List Char) : Option (List Char) :=
  locScan [] s

/-- `experience_val`: stripped experience group or the sentinel. -/
def expVal (text : String) : String :=
  match expSearch text.data with
  | some g => pstripS (String.mk g)
  | none => "N/A"

/-- `skills_val`: stripped skill group or the sentinel. -/
def skillVal (text : String) : String :=
  match skillSearch text.data with
  | some g => pstripS (String.mk g)
  | none => "N/A"

/-- `location_val`: stripped location group or the sentinel. -/
def locVal (text : String) : String :=
  match locMatch text.data with
  | some g => pstripS (String.mk g)
  | none => "N/A"

/-- Embedding of `parse_metadata(metadata_text)`. The rule-3 fallback (the
ordered location/date regex lists, source lines 830-852) is the parameter
`fb`, applied to the stripped text exactly where the source falls through;
no claim depends on it. -/
def parse_metadata_with (fb : String → ParseResult) (metadata_text : String) :
    ParseResult :=
  if metadata_text = "" then .two "N/A" "N/A"
  else
    let text := pstripS metadata_text
    match matchPosted text.data with
    | some (g1, g2) =>
      .two (String.mk (stripSetL [ ' ', ',' ] g2)) (pstripS (String.mk g1))
    | none =>
      let ev := expVal text
      let sv := skillVal text
      if ev ≠ "N/A" ∨ sv ≠ "N/A" then .four (locVal text) "N/A" ev sv
      else fb text

/-- C5: a text whose stripped form matches the
`Posted <Month> <Day>, <Year><rest>` shape yields the 2-tuple whose posted
date is the matched date and whose location is the remainder stripped of
surrounding spaces and commas, for every value of the rule-3 fallback
(short-circuiting all other rules); in particular
`parse_metadata("Posted Jul 22, 2025Chennai, India")` is
`("Chennai, India", "Jul 22, 2025")`. -/
theorem claim_C5_posted_date_shortcircuit (fb : String → ParseResult)
    (text : String) (d r : List Char) (h0 : text ≠ "")
    (h : matchPosted (pstripS text).data = some (d, r)) :
    parse_metadata_with fb text
      = ParseResult.two (String.mk (stripSetL [ ' ', ',' ] r)) (pstripS (String.mk d))
    ∧ parse_metadata_with fb "Posted Jul 22, 2025Chennai, India"
      = ParseResult.two "Chennai, India" "Jul 22, 2025" := by
  constructor
  · unfold parse_metadata_with
    rw [if_neg h0]
    simp only [h]
  · rfl

/-- Witness for C5 at the spec's concrete example. -/
theorem claim_C5_posted_date_shortcircuit_witness :
    parse_metadata_with (fun _ => ParseResult.two "N/A" "N/A")
      "Posted Jul 22, 2025Chennai, India"
      = ParseResult.two "Chennai, India" "Jul 22, 2025" :=
  (claim_C5_posted_date_shortcircuit (fun _ => ParseResult.two "N/A" "N/A")
    "Posted Jul 22, 2025Chennai, India" "Jul 22, 2025".data "Chennai, India".data
    (by decide) (by decide)).2

/-- C6 counterexample: `"Chennai, India Experience: 3-5 years"` contains the
`Experience:` marker and does not match the Posted shape, yet the returned
4-tuple's location is `"N/A"`, not the text `"Chennai, India"` preceding the
marker: the anchored location regex `([^,\n]+?)(?:...)` cannot cross the
comma, so the location group fails. -/
theorem claim_C6_experience_marker_counterexample :
    parse_metadata_with (fun _ => ParseResult.two "N/A" "N/A")
      "Chennai, India Experience: 3-5 years"
      = ParseResult.four "N/A" "N/A" "3-5 years" "N/A" := by
  decide

/-- C6 (amended): when the stripped text does not match the Posted shape and
the experience regex (text after `Experience:`, in the word/hyphen/space
class, ending in a `year`/`years` token) or the skill regex (at least one
non-newline character after `Required Skill:`) matches, `parse_metadata`
returns the 4-tuple `(location_val, "N/A", experience_val, skills_val)` for
every rule-3 fallback, where `location_val` is the comma- and newline-free
prefix preceding the first `Full time`/`Experience:`/`Required Skill:`
separator or the text end, and `"N/A"` when no such prefix exists; in
particular
`parse_metadata("Bengaluru Full time Experience: 10-12 years Required Skill: SAP ABAP")`
is `("Bengaluru", "N/A", "10-12 years", "SAP ABAP")`. -/
theorem claim_C6_experience_skill_rule (fb : String → ParseResult)
    (text : String) (h0 : text ≠ "")
    (h1 : matchPosted (pstripS text).data = none)
    (h2 : expVal (pstripS text) ≠ "N/A" ∨ skillVal (pstripS text) ≠ "N/A") :
    parse_metadata_with fb text
      = ParseResult.four (locVal (pstripS text)) "N/A" (expVal (pstripS text))
          (skillVal (pstripS text))
    ∧ parse_metadata_with fb
        "Bengaluru Full time Experience: 10-12 years Required Skill: SAP ABAP"
      = ParseResult.four "Bengaluru" "N/A" "10-12 years" "SAP ABAP" := by
  constructor
  · unfold parse_metadata_with
    rw [if_neg h0]
    simp only [h1]
    rw [if_pos h2]
  · rfl

/-- Witness for C6 (amended) at the spec's concrete example. -/
theorem claim_C6_experience_skill_rule_witness :
    parse_metadata_with (fun _ => ParseResult.two "N/A" "N/A")
      "Bengaluru Full time Experience: 10-12 years Required Skill: SAP ABAP"
      = ParseResult.four "Bengaluru" "N/A" "10-12 years" "SAP ABAP" :=
  (claim_C6_experience_skill_rule (fun _ => ParseResult.two "N/A" "N/A")
    "Bengaluru Full time Experience: 10-12 years Required Skill: SAP ABAP"
    (by decide) (by decide) (by decide)).2

/-! ## The per-card extraction loop (`extract_job_data`, source lines 900-1420)

One card's browser interactions are an explicit `CardModel`: the pre-card
`page.url` liveness probe, the per-field outcomes (classified against the
browser-closed substrings exactly as the source does), the raw `href`
value, the database outcome for the dedup gate, the crawl4ai markdown
result and the Gemini enrichment result. The crawl4ai and Gemini
collaborators are external: a missing result means the corresponding
`except` branch ran (counter incremented, sentinel/fallback used); both
branches still append exactly one record. The metadata branch (source
lines 988-1025) is observable only through browser-closed classification:
its parsed location/posted fields are unconditionally overwritten by the
individual-selector block (the `else` on source line 1030 belongs to the
`if browser_closed` check, so that block always runs), and its
experience/skills fields are dropped when the enrichment fallback rebuilds
the record from its fixed key set. -/

/-- The final record shape appended to the jobs list (the fields the
enrichment fallback carries; the external LLM may replace all of them). -/
structure JobRecord where
  title : String
  company : String
  location : String
  postedDate : String
  applyLink : String
  description : String
  detailInfo : String
deriving DecidableEq, Repr

/-- Outcome of the href read (`link_element.get_attribute('href')`, or
`card.get_attribute('href')` when no link selector is configured): a raised
exception or an optional attribute value (`none` also covers a missing
link element, as in the source). -/
inductive LinkOutcome where
  | raises (msg : String)
  | value (href : Option String)
deriving DecidableEq, Repr

/-- Selector configuration of `extract_job_data` (the keys it reads). -/
structure ScrapeConfig where
  maxJobs : Nat
  paginationType : String
  titleSelector : Option String
  locationSelector : Option String
  postedSelector : Option String
  descriptionSelector : Option String
  linkSelector : Option String
  useMetadataParsing : Bool
  metadataSelector : Option String
  companyName : String
  url : String
deriving DecidableEq, Repr

/-- All external observations made while processing one job card. -/
structure CardModel where
  pageAlive : Bool
  bodyRaises : Bool
  titleOutcome : FieldOutcome
  metadataOutcome : FieldOutcome
  locationOutcome : FieldOutcome
  postedOutcome : FieldOutcome
  descriptionOutcome : FieldOutcome
  linkOutcome : LinkOutcome
  db : DbOutcome
  crawl : Option String
  gemini : Option JobRecord
deriving DecidableEq, Repr

/-- What processing one card does to the loop state. -/
inductive CardStep where
  | dead
  | terminated
  | skippedDup
  | skippedErr
  | ok (j : JobRecord) (crawlErr gemErr : Bool)
deriving DecidableEq, Repr

/-- `true` exactly for the appending step. -/
def CardStep.isOk : CardStep → Bool
  | .ok _ _ _ => true
  | _ => false

/-- Split a URL at the first `://` marker, when present. -/
def splitSchemeRest : List Char → Option (List Char × List Char)
  | [] => none
  | c :: rest =>
    if leadsWith "://".data (c :: rest) then some ([], (c :: rest).drop 3)
    else
      match splitSchemeRest rest with
      | some (a, b) => some (c :: a, b)
      | none => none

/-- `urlparse` + `f"{scheme}://{netloc}"` for the configured site URL. -/
def schemeNetloc (url : String) : String :=
  match splitSchemeRest url.data with
  | some (sch, rest) =>
    String.mk (sch ++ "://".data ++ rest.takeWhile (fun c => c ≠ '/'))
  | none => "://"

/-- The apply-link resolution (source lines 1121-1146): Google's career
paths are special-cased; other root-relative hrefs are joined onto
`scheme://netloc` of the configured URL (the `urljoin` case the source
exercises); absolute hrefs pass through. -/
def resolveApplyLink (cfg : ScrapeConfig) (h : String) : String :=
  if lowerStr cfg.companyName = "google" then
    if leadsWith "/jobs".data h.data then
      "https://www.google.com/about/careers/applications" ++ h
    else if leadsWith "jobs/".data h.data then
      "https://www.google.com/about/careers/applications/" ++ h
    else if leadsWith "/".data h.data then schemeNetloc cfg.url ++ h
    else h
  else if leadsWith "/".data h.data then schemeNetloc cfg.url ++ h
  else h

/-- Whether the metadata branch runs and its element read raises a
browser-closed error (source lines 988-1025; see the section comment for
why this is the branch's only observable effect here). -/
def metadataTerminates (cfg : ScrapeConfig) (card : CardModel) : Bool :=
  if cfg.useMetadataParsing && pyTruthy cfg.metadataSelector then
    match card.metadataOutcome with
    | .raises msg => isBrowserClosedMsg msg
    | _ => false
  else false

/-- The tail of one card's processing once the raw `href` is known: apply
link resolution, dedup gate, crawl4ai detail fetch, Gemini enrichment with
fallback (source lines 1121-1402). -/
def finishCard (cfg : ScrapeConfig) (card : CardModel)
    (title location posted description : String) (href : Option String) :
    CardStep :=
  let applyLink := match href with
    | none => "N/A"
    | some h => resolveApplyLink cfg h
  if check_apply_link_exists (some applyLink) card.db then .skippedDup
  else
    let detail := if applyLink = "N/A" then "N/A"
      else match card.crawl with
        | some md => md
        | none => "N/A"
    let crawlErr := if applyLink = "N/A" then false else card.crawl.isNone
    match card.gemini with
    | some g => .ok { g with detailInfo := detail } crawlErr false
    | none =>
      .ok ⟨title, cfg.companyName, location, posted, applyLink, description,
        detail⟩ crawlErr true

/-- Processing of one job card (the body of the `for i, card in
enumerate(job_cards)` loop, source lines 935-1402). -/
def processCard (cfg : ScrapeConfig) (card : CardModel) : CardStep :=
  if !card.pageAlive then .dead
  else if card.bodyRaises then .skippedErr
  else
    match extract_field cfg.titleSelector card.titleOutcome with
    | .sessionTerminated => .terminated
    | .value title =>
      if metadataTerminates cfg card then .terminated
      else
        match extract_field cfg.locationSelector card.locationOutcome with
        | .sessionTerminated => .terminated
        | .value location =>
          match extract_field cfg.postedSelector card.postedOutcome with
          | .sessionTerminated => .terminated
          | .value posted =>
            match extract_field cfg.descriptionSelector card.descriptionOutcome with
            | .sessionTerminated => .terminated
            | .value description =>
              match card.linkOutcome with
              | .raises msg =>
                if isBrowserClosedMsg msg then .terminated
                else finishCard cfg card title location posted description none
              | .value href =>
                finishCard cfg card title location posted description href

/-- Extraction statistics dictionary of `extract_job_data`. -/
structure Stats where
  totalJobCardsFound : Nat
  skippedDuplicates : Nat
  skippedExtractionErrors : Nat
  successfulExtractions : Nat
  geminiProcessingErrors : Nat
  crawl4aiErrors : Nat
  browserClosedEarly : Bool
deriving DecidableEq, Repr

/-- Fresh statistics with the given card count. -/
def initStats (found : Nat) : Stats :=
  ⟨found, 0, 0, 0, 0, 0, false⟩

/-- Conditional counter increment. -/
def bump (b : Bool) (n : Nat) : Nat :=
  if b then n + 1 else n

/-- The per-card loop. The `max_jobs` check (source lines 944-947) stops
before processing a card when the collected list has reached `max_jobs`,
except under `infinite_scroll`. A dead page sets `browser_closed_early`
(source line 959); a browser-closed error raised inside field extraction
breaks the loop without setting it (source lines 968-977 and siblings). -/
def extract_loop (cfg : ScrapeConfig) :
    List CardModel → List JobRecord → Stats → List JobRecord × Stats
  | [], jobs, stats => (jobs, stats)
  | card :: rest, jobs, stats =>
    if cfg.maxJobs ≤ jobs.length ∧ cfg.paginationType ≠ "infinite_scroll" then
      (jobs, stats)
    else
      match processCard cfg card with
      | .dead => (jobs, { stats with browserClosedEarly := true })
      | .terminated => (jobs, stats)
      | .skippedDup =>
        extract_loop cfg rest jobs
          { stats with skippedDuplicates := stats.skippedDuplicates + 1 }
      | .skippedErr =>
        extract_loop cfg rest jobs
          { stats with skippedExtractionErrors := stats.skippedExtractionErrors + 1 }
      | .ok j cE gE =>
        extract_loop cfg rest (jobs ++ [ j ])
          { stats with
            successfulExtractions := stats.successfulExtractions + 1,
            crawl4aiErrors := bump cE stats.crawl4aiErrors,
            geminiProcessingErrors := bump gE stats.geminiProcessingErrors }

/-- `extract_job_data(page, config, existing_jobs)`: the card query either
raises (returning the existing jobs with zeroed statistics, source lines
925-931) or yields the cards fed to the loop. -/
def extract_job_data (cfg : ScrapeConfig) (cardsFound : Option (List CardModel))
    (existing : List JobRecord) : List JobRecord × Stats :=
  match cardsFound with
  | none => (existing, initStats 0)
  | some cards => extract_loop cfg cards existing (initStats cards.length)

/-- A plain non-Google configuration with both limits far away. -/
def cfgDemo : ScrapeConfig :=
  ⟨10, "button_click", some ".t", some ".l", some ".p", none, none, false, none,
    "Acme", "https://acme.example/careers"⟩

/-- A benign card: page alive, fields found or absent, no link, no
duplicate, enrichment falls back to the raw record. -/
def cardOkDemo : CardModel :=
  ⟨true, false, FieldOutcome.found " Engineer ", FieldOutcome.absent,
    FieldOutcome.found "Berlin", FieldOutcome.absent, FieldOutcome.absent,
    LinkOutcome.value none, DbOutcome.count 0, none, none⟩

/-- A card whose title extraction raises the Playwright browser-closed
error. -/
def cardClosedDemo : CardModel :=
  ⟨true, false,
    FieldOutcome.raises "Target page, context or browser has been closed",
    FieldOutcome.absent, FieldOutcome.found "Berlin", FieldOutcome.absent,
    FieldOutcome.absent, LinkOutcome.value none, DbOutcome.count 0, none, none⟩

/-- The record `cardOkDemo` appends. -/
def recDemo : JobRecord :=
  ⟨"Engineer", "Acme", "Berlin", "N/A", "N/A", "N/A", "N/A"⟩

/-- C1 (evaluation at the failing input): when card 1's title extraction
raises `'Target page, context or browser has been closed'`, the per-card
loop aborts immediately (card 2 is never processed), no record for card 1
is appended, and card 0's record remains — but the returned statistics
carry `browser_closed_early = false`, not `true` as the claim requires:
only the pre-card `page.url` liveness probe (source line 959) sets the
flag; the seven field-extraction browser-closed handlers (source lines
968-977 and siblings) break the loop without setting it. -/
theorem claim_C1_browser_closed_flag_eval :
    extract_job_data cfgDemo (some [ cardOkDemo, cardClosedDemo, cardOkDemo ]) []
      = ([ recDemo ], ⟨3, 0, 0, 1, 1, 0, false⟩) := by
  decide

/-- C9: under every pagination type other than `infinite_scroll` the loop
stops before processing a card once the collected list has reached
`max_jobs`, so the result never exceeds `max_jobs` when the input list was
within it; under `infinite_scroll` every rendered card is processed
regardless of `max_jobs`, so when all cards append the result length is the
input length plus the card count (and may exceed `max_jobs`). -/
theorem claim_C9_max_jobs_skips_infinite_scroll (cfg : ScrapeConfig)
    (cards : List CardModel) (existing : List JobRecord) (s : Stats) :
    (cfg.paginationType ≠ "infinite_scroll" → existing.length ≤ cfg.maxJobs →
      (extract_loop cfg cards existing s).1.length ≤ cfg.maxJobs)
    ∧ (cfg.paginationType = "infinite_scroll" →
      (∀ c ∈ cards, (processCard cfg c).isOk = true) →
      (extract_loop cfg cards existing s).1.length
        = existing.length + cards.length) := by
  constructor
  · intro hty
    induction cards generalizing existing s with
    | nil => intro hlen; simpa [extract_loop] using hlen
    | cons card rest ih =>
      intro hlen
      rw [extract_loop]
      by_cases hc : cfg.maxJobs ≤ existing.length ∧ cfg.paginationType ≠ "infinite_scroll"
      · rw [if_pos hc]; exact hlen
      · rw [if_neg hc]
        have hlt : existing.length < cfg.maxJobs := by
          rcases Nat.lt_or_ge existing.length cfg.maxJobs with h | h
          · exact h
          · exact absurd ⟨h, hty⟩ hc
        cases hstep : processCard cfg card with
        | dead => exact hlen
        | terminated => exact hlen
        | skippedDup => exact ih existing _ hlen
        | skippedErr => exact ih existing _ hlen
        | ok j cE gE => exact ih (existing ++ [ j ]) _ (by simpa using hlt)
  · intro hty
    induction cards generalizing existing s with
    | nil => intro _; simp [extract_loop]
    | cons card rest ih =>
      intro hall
      rw [extract_loop, if_neg (by simp [hty])]
      have hcard : (processCard cfg card).isOk = true :=
        hall card (List.mem_cons_self card rest)
      cases hstep : processCard cfg card with
      | dead => rw [hstep] at hcard; simp [CardStep.isOk] at hcard
      | terminated => rw [hstep] at hcard; simp [CardStep.isOk] at hcard
      | skippedDup => rw [hstep] at hcard; simp [CardStep.isOk] at hcard
      | skippedErr => rw [hstep] at hcard; simp [CardStep.isOk] at hcard
      | ok j cE gE =>
        exact (ih (existing ++ [ j ]) _
          (fun c hcm => hall c (List.mem_cons_of_mem card hcm))).trans
          (by simp; omega)

/-- Capped configuration used by the C9 witness (`max_jobs = 1`). -/
def cfgCapDemo : ScrapeConfig :=
  { cfgDemo with maxJobs := 1 }

/-- Infinite-scroll configuration used by the C9 witness (`max_jobs = 1`). -/
def cfgScrollDemo : ScrapeConfig :=
  { cfgDemo with maxJobs := 1, paginationType := "infinite_scroll" }

/-- Witness for C9: with `max_jobs = 1` and three appending cards, a
`button_click` session returns at most 1 record while an `infinite_scroll`
session returns all 3, exceeding `max_jobs`. -/
theorem claim_C9_max_jobs_skips_infinite_scroll_witness :
    (extract_loop cfgCapDemo [ cardOkDemo, cardOkDemo, cardOkDemo ] []
      (initStats 3)).1.length ≤ 1
    ∧ (extract_loop cfgScrollDemo [ cardOkDemo, cardOkDemo, cardOkDemo ] []
      (initStats 3)).1.length = 3 :=
  ⟨(claim_C9_max_jobs_skips_infinite_scroll cfgCapDemo
      [ cardOkDemo, cardOkDemo, cardOkDemo ] [] (initStats 3)).1
      (by decide) (by decide),
   (claim_C9_max_jobs_skips_infinite_scroll cfgScrollDemo
      [ cardOkDemo, cardOkDemo, cardOkDemo ] [] (initStats 3)).2
      rfl (by decide)⟩

end ExiLead
